import Mathlib

/-!
Shallow embedding of the JWT-auth credential store and auth controller
(src/models/User.js and src/controllers/authController.js) over a pure
store state.  SQL tables become lists of rows, `NOW()` becomes an explicit
`now : Nat` (seconds), transactions become all-or-nothing pure updates
(a thrown error inside a transaction rolls back, so an erroring operation
returns the original store).
-/

namespace JwtAuth

/-- Row of the `users` table (src/models/User.js `initDatabase`):
id, email, password (digest), name, is_active, is_verified,
created_at, updated_at. -/
structure UserRow where
  id : Nat
  email : String
  password : String
  name : String
  isActive : Bool
  isVerified : Bool
  createdAt : Nat
  updatedAt : Nat
deriving Repr, DecidableEq

/-- Row of the `refresh_tokens` table: user_id, token, created_at,
expires_at. -/
structure RefreshTokenRow where
  userId : Nat
  token : String
  createdAt : Nat
  expiresAt : Nat
deriving Repr, DecidableEq

/-- Row of the `password_resets` table: user_id, token (digest of the raw
reset token), is_valid, created_at, expires_at. -/
structure PasswordResetRow where
  userId : Nat
  token : String
  isValid : Bool
  createdAt : Nat
  expiresAt : Nat
deriving Repr, DecidableEq

/-- The credential store: the three tables plus the users AUTO_INCREMENT
counter. -/
structure Store where
  users : List UserRow
  refreshTokens : List RefreshTokenRow
  passwordResets : List PasswordResetRow
  nextId : Nat
deriving Repr, DecidableEq

/-- `DATE_ADD(NOW(), INTERVAL 7 DAY)` offset in seconds (refresh-token row
lifetime in `storeRefreshToken`). -/
def sevenDays : Nat := 7 * 24 * 60 * 60

/-- `DATE_ADD(NOW(), INTERVAL 1 HOUR)` offset in seconds (reset-token row
lifetime in `storePasswordResetToken`). -/
def oneHour : Nat := 60 * 60

/-- Modelled from the spec: Credential Hasher capability
`hash(plaintext) -> digest` (src/utils/crypto.js `hashPassword` is not
under src/).  An injective stand-in for the one-way hash. -/
def hashPassword (plaintext : String) : String := "bcrypt$" ++ plaintext

/-- Modelled from the spec: Credential Hasher capability
`verify(plaintext, digest) -> bool` (src/utils/crypto.js
`comparePassword` is not under src/). -/
def comparePassword (plaintext digest : String) : Bool :=
  digest == hashPassword plaintext

/-- Modelled from the spec: deterministic, non-salted reset-token digest
`hashDeterministic(token) -> digest` (src/utils/crypto.js
`hashResetToken` is not under src/). -/
def hashResetToken (token : String) : String := "sha256$" ++ token

/-- `User._formatUser`: the object the store-level lookups return — note it
keeps the password digest (src/models/User.js lines 410-421). -/
structure FormattedUser where
  id : Nat
  email : String
  name : String
  password : String
  isActive : Bool
  isVerified : Bool
  createdAt : Nat
  updatedAt : Nat
deriving Repr, DecidableEq

/-- `User._formatUser(userData)` field for field, including `password`. -/
def formatUser (u : UserRow) : FormattedUser :=
  { id := u.id, email := u.email, name := u.name, password := u.password,
    isActive := u.isActive, isVerified := u.isVerified,
    createdAt := u.createdAt, updatedAt := u.updatedAt }

/-- `User.findByEmail`: `SELECT * FROM users WHERE email = ? AND
is_active = 1 LIMIT 1`, formatted, or null. -/
def findByEmail (s : Store) (email : String) : Option FormattedUser :=
  (s.users.find? (fun u => u.email == email && u.isActive)).map formatUser

/-- `User.findById`: `SELECT * FROM users WHERE id = ? AND is_active = 1
LIMIT 1`, formatted, or null. -/
def findById (s : Store) (userId : Nat) : Option FormattedUser :=
  (s.users.find? (fun u => u.id == userId && u.isActive)).map formatUser

/-- `User.create` (src/models/User.js lines 70-115): required-fields check,
`findByEmail` duplicate check, hash, transactional INSERT, then
`findById(insertId)`.  The INSERT hits the `UNIQUE NOT NULL` constraint on
`email` when any stored row (active or not) already has that email; the
raised driver error is rolled back and rethrown wrapped, never translated
(the duplicate-entry message stands in for the driver's ER_DUP_ENTRY
message).  An erroring call returns the original store (rollback). -/
def createUser (s : Store) (now : Nat) (email password name : String) :
    Except String FormattedUser × Store :=
  if email.isEmpty || password.isEmpty || name.isEmpty then
    (.error "Error creating user: Email, password, and name are required", s)
  else
    match findByEmail s email with
    | some _ => (.error "Error creating user: User already exists with this email", s)
    | none =>
      if s.users.any (fun u => u.email == email) then
        (.error "Error creating user: Duplicate entry for key email", s)
      else
        let row : UserRow :=
          { id := s.nextId, email := email, password := hashPassword password,
            name := name, isActive := true, isVerified := false,
            createdAt := now, updatedAt := now }
        let s1 : Store :=
          { s with users := s.users ++ [row], nextId := s.nextId + 1 }
        match findById s1 s.nextId with
        | some u => (.ok u, s1)
        | none => (.error "Error creating user: user not found", s)

/-- `User.storeRefreshToken`: `INSERT INTO refresh_tokens (user_id, token,
created_at, expires_at) VALUES (?, ?, NOW(), DATE_ADD(NOW(), INTERVAL 7
DAY))`; returns true. -/
def storeRefreshToken (s : Store) (now userId : Nat) (refreshToken : String) :
    Bool × Store :=
  (true,
   { s with refreshTokens := s.refreshTokens ++
      [{ userId := userId, token := refreshToken, createdAt := now,
         expiresAt := now + sevenDays }] })

/-- `User.findByRefreshToken`: `SELECT u.* FROM refresh_tokens rt INNER
JOIN users u ON rt.user_id = u.id WHERE rt.user_id = ? AND rt.token = ?
AND rt.expires_at > NOW() AND u.is_active = 1 LIMIT 1`, formatted. -/
def findByRefreshToken (s : Store) (now userId : Nat) (refreshToken : String) :
    Option FormattedUser :=
  if s.refreshTokens.any
      (fun rt => rt.userId == userId && rt.token == refreshToken &&
        decide (now < rt.expiresAt)) then
    (s.users.find? (fun u => u.id == userId && u.isActive)).map formatUser
  else
    none

/-- `User.updateRefreshToken` (rotation, src/models/User.js lines
150-176): one transaction that deletes every `(user_id, token)` match of
the old token and then `storeRefreshToken`s the new one.  The DELETE's
affected-row count is never inspected, so the operation returns `ok true`
whether or not an old row existed. -/
def updateRefreshToken (s : Store) (now userId : Nat) (oldToken newToken : String) :
    Except String Bool × Store :=
  let remaining := s.refreshTokens.filter
    (fun rt => !(rt.userId == userId && rt.token == oldToken))
  let afterDelete : Store := { s with refreshTokens := remaining }
  let inserted := storeRefreshToken afterDelete now userId newToken
  (.ok true, inserted.2)

/-- `User.removeRefreshToken`: `DELETE FROM refresh_tokens WHERE user_id =
? AND token = ?`; returns `affectedRows > 0`. -/
def removeRefreshToken (s : Store) (userId : Nat) (refreshToken : String) :
    Bool × Store :=
  let remaining := s.refreshTokens.filter
    (fun rt => !(rt.userId == userId && rt.token == refreshToken))
  (decide (remaining.length < s.refreshTokens.length),
   { s with refreshTokens := remaining })

/-- `UPDATE password_resets SET is_valid = 0 WHERE user_id = ?` — the
statement shared by `storePasswordResetToken` and `updatePassword`. -/
def invalidateResetsFor (userId : Nat) (l : List PasswordResetRow) :
    List PasswordResetRow :=
  l.map (fun r => if r.userId == userId then { r with isValid := false } else r)

/-- `User.storePasswordResetToken` (src/models/User.js lines 194-225): one
transaction that sets `is_valid = 0` on every existing reset row of the
user, then inserts the new digest row with `is_valid = 1` and a 1-hour
expiry. -/
def storePasswordResetToken (s : Store) (now userId : Nat) (hashedToken : String) :
    Except String Bool × Store :=
  (.ok true,
   { s with passwordResets := invalidateResetsFor userId s.passwordResets ++
      [{ userId := userId, token := hashedToken, isValid := true,
         createdAt := now, expiresAt := now + oneHour }] })

/-- `User.findValidPasswordResetToken` (src/models/User.js lines 228-244):
hash the raw token, then `SELECT u.* FROM password_resets prt INNER JOIN
users u ON prt.user_id = u.id WHERE prt.user_id = ? AND prt.token = ? AND
prt.is_valid = 1 AND prt.expires_at > NOW() AND u.is_active = 1 LIMIT 1`.
A SELECT only: the returned store is the input store. -/
def findValidPasswordResetToken (s : Store) (now userId : Nat) (rawToken : String) :
    Option FormattedUser × Store :=
  let hashedToken := hashResetToken rawToken
  let hit :=
    if s.passwordResets.any
        (fun r => r.userId == userId && r.token == hashedToken &&
          r.isValid && decide (now < r.expiresAt)) then
      (s.users.find? (fun u => u.id == userId && u.isActive)).map formatUser
    else
      none
  (hit, s)

/-- `User.clearAllRefreshTokens`: `DELETE FROM refresh_tokens WHERE
user_id = ?`; returns the affected-row count. -/
def clearAllRefreshTokens (s : Store) (userId : Nat) : Nat × Store :=
  let remaining := s.refreshTokens.filter (fun rt => !(rt.userId == userId))
  (s.refreshTokens.length - remaining.length,
   { s with refreshTokens := remaining })

/-- `User.updatePassword` (src/models/User.js lines 247-287): one
transaction that updates `password`/`updated_at` for the active user,
throws (and rolls back, returning the original store) when
`affectedRows = 0`, then deletes all of the user's refresh-token rows and
sets `is_valid = 0` on all of the user's reset rows. -/
def updatePassword (s : Store) (now userId : Nat) (newPassword : String) :
    Except String Bool × Store :=
  let hashed := hashPassword newPassword
  if s.users.any (fun u => u.id == userId && u.isActive) then
    let users1 := s.users.map
      (fun u => if u.id == userId && u.isActive then
        { u with password := hashed, updatedAt := now } else u)
    let s1 : Store := { s with users := users1 }
    let s2 := (clearAllRefreshTokens s1 userId).2
    (.ok true,
     { s2 with passwordResets := invalidateResetsFor userId s2.passwordResets })
  else
    (.error "Error updating password: User not found or not active", s)

/-- Modelled from the spec: Token Codec refresh-token claims (src/utils/jwt.js
is not under src/) — `userId`, issued-at, expiry = now + refreshTTL. -/
structure RefreshClaims where
  userId : Nat
  iat : Nat
  exp : Nat
deriving Repr, DecidableEq

/-- Modelled from the spec: Token Codec `issueRefresh` embeds `userId`,
issued-at, expiry = now + refreshTTL, where refreshTTL is the configured
`tokenExpiry.refresh` option. -/
def issueRefreshClaims (refreshTTL now userId : Nat) : RefreshClaims :=
  { userId := userId, iat := now, exp := now + refreshTTL }

/-- Modelled from the spec: Token Codec `verifyRefresh` — stateless,
fails (`false`) only past the embedded expiry (signature checks are
implicit in having well-formed claims). -/
def verifyRefreshClaims (now : Nat) (c : RefreshClaims) : Bool :=
  decide (now < c.exp)

/-- Observable HTTP response of a controller action: status, `success`,
`message`, the optional `data.user` JSON payload as key-value pairs, an
optional error detail, whether auth cookies were cleared, and the token
pair set as cookies (if any). -/
structure ApiResponse where
  status : Nat
  success : Bool
  message : String
  userPayload : Option (List (String × String)) := none
  errorDetail : Option String := none
  cookiesCleared : Bool := false
  cookiesSet : Option (String × String) := none
deriving Repr, DecidableEq

/-- The `data.user` object the controller serializes on sign-up/sign-in
success: only `id`, `email`, `name` (src/controllers/authController.js
lines 77-81 and 136-140). -/
def userJson (u : FormattedUser) : List (String × String) :=
  [("id", toString u.id), ("email", u.email), ("name", u.name)]

/-- `AuthController.signUp` (src/controllers/authController.js lines
37-91): `findByEmail` duplicate check (400), `User.create`, token
generation (the fresh signed tokens are inputs here), `storeRefreshToken`,
cookies, 201 with the id/email/name payload; any thrown error lands in the
catch as a 500 "Error creating user" response. -/
def controllerSignUp (s : Store) (now : Nat) (email password name : String)
    (accessToken refreshToken : String) : ApiResponse × Store :=
  match findByEmail s email with
  | some _ =>
    ({ status := 400, success := false,
       message := "User already exists with this email" }, s)
  | none =>
    match createUser s now email password name with
    | (.error e, s1) =>
      ({ status := 500, success := false, message := "Error creating user",
         errorDetail := some e }, s1)
    | (.ok u, s1) =>
      let stored := storeRefreshToken s1 now u.id refreshToken
      ({ status := 201, success := true, message := "User created successfully",
         userPayload := some (userJson u),
         cookiesSet := some (accessToken, refreshToken) }, stored.2)

/-- `AuthController.signIn` (src/controllers/authController.js lines
94-150): `findByEmail` miss and password-compare failure both return the
same 401 "Invalid credentials"; success stores the refresh token, sets
cookies and returns the id/email/name payload. -/
def controllerSignIn (s : Store) (now : Nat) (email password : String)
    (accessToken refreshToken : String) : ApiResponse × Store :=
  match findByEmail s email with
  | none =>
    ({ status := 401, success := false, message := "Invalid credentials" }, s)
  | some user =>
    if comparePassword password user.password then
      let stored := storeRefreshToken s now user.id refreshToken
      ({ status := 200, success := true, message := "Login successful",
         userPayload := some (userJson user),
         cookiesSet := some (accessToken, refreshToken) }, stored.2)
    else
      ({ status := 401, success := false, message := "Invalid credentials" }, s)

/-- `AuthController.refreshToken` (src/controllers/authController.js lines
153-204): 400 when the body carries no token; codec verification failure
throws into the catch (403, cookies NOT cleared); a store lookup miss
clears the auth cookies and returns 403; a hit rotates via
`updateRefreshToken` and sets the new pair.  `verifyRefresh` abstracts
`jwtUtils.verifyRefreshToken` (not under src/): `some userId` on success,
`none` when it throws. -/
def controllerRefreshToken (verifyRefresh : String → Option Nat) (s : Store)
    (now : Nat) (bodyToken : Option String)
    (newAccessToken newRefreshToken : String) : ApiResponse × Store :=
  match bodyToken with
  | none =>
    ({ status := 400, success := false, message := "Refresh token required" }, s)
  | some refreshToken =>
    match verifyRefresh refreshToken with
    | none =>
      ({ status := 403, success := false, message := "Invalid refresh token" }, s)
    | some decodedUserId =>
      match findByRefreshToken s now decodedUserId refreshToken with
      | none =>
        ({ status := 403, success := false, message := "Invalid refresh token",
           cookiesCleared := true }, s)
      | some user =>
        match updateRefreshToken s now user.id refreshToken newRefreshToken with
        | (.error e, s1) =>
          ({ status := 403, success := false, message := "Invalid refresh token",
             errorDetail := some e }, s1)
        | (.ok _, s1) =>
          ({ status := 200, success := true,
             message := "Token refreshed successfully",
             cookiesSet := some (newAccessToken, newRefreshToken) }, s1)

/-- `AuthController.forgotPassword` (src/controllers/authController.js
lines 207-241): an email with no active user returns the generic success
immediately; a match generates a reset token (`rawResetToken` stands for
`CryptoUtils.generateResetToken()`), stores its digest, sends the email
(external capability, modelled as succeeding) and returns the same generic
success. -/
def controllerForgotPassword (s : Store) (now : Nat) (email rawResetToken : String) :
    ApiResponse × Store :=
  match findByEmail s email with
  | none =>
    ({ status := 200, success := true,
       message := "If the email exists, a reset link will be sent" }, s)
  | some user =>
    let hashedToken := hashResetToken rawResetToken
    let stored := storePasswordResetToken s now user.id hashedToken
    ({ status := 200, success := true,
       message := "If the email exists, a reset link will be sent" }, stored.2)

/-- `AuthController.resetPassword` (src/controllers/authController.js lines
244-274): validate via `findValidPasswordResetToken` (400 on miss), then
`updatePassword` and a redundant `clearAllRefreshTokens`. -/
def controllerResetPassword (s : Store) (now : Nat) (rawToken : String)
    (userId : Nat) (newPassword : String) : ApiResponse × Store :=
  match findValidPasswordResetToken s now userId rawToken with
  | (none, s1) =>
    ({ status := 400, success := false,
       message := "Invalid or expired reset token" }, s1)
  | (some _, s1) =>
    match updatePassword s1 now userId newPassword with
    | (.error e, s2) =>
      ({ status := 500, success := false, message := "Error resetting password",
         errorDetail := some e }, s2)
    | (.ok _, s2) =>
      let cleared := clearAllRefreshTokens s2 userId
      ({ status := 200, success := true,
         message := "Password reset successfully" }, cleared.2)

/-! Store operations as a step system, for reachability invariants: each
constructor is one mutating store operation with its inputs. -/

/-- One mutating operation of the credential store (src/models/User.js). -/
inductive StoreOp where
  | create (now : Nat) (email password name : String)
  | storeRT (now userId : Nat) (token : String)
  | rotateRT (now userId : Nat) (oldToken newToken : String)
  | removeRT (userId : Nat) (token : String)
  | storeReset (now userId : Nat) (hashedToken : String)
  | updatePw (now userId : Nat) (newPassword : String)
  | clearRT (userId : Nat)
deriving Repr

/-- Effect of one store operation on the store (an erroring transactional
operation rolls back, leaving the store it returned — the original). -/
def applyOp (s : Store) : StoreOp → Store
  | .create now e p n => (createUser s now e p n).2
  | .storeRT now uid t => (storeRefreshToken s now uid t).2
  | .rotateRT now uid o nt => (updateRefreshToken s now uid o nt).2
  | .removeRT uid t => (removeRefreshToken s uid t).2
  | .storeReset now uid t => (storePasswordResetToken s now uid t).2
  | .updatePw now uid p => (updatePassword s now uid p).2
  | .clearRT uid => (clearAllRefreshTokens s uid).2

/-- The store right after `initDatabase` on a fresh database: three empty
tables. -/
def initialStore : Store :=
  { users := [], refreshTokens := [], passwordResets := [], nextId := 1 }

/-- Store states reachable from the fresh database through store
operations. -/
inductive Reachable : Store → Prop
  | init : Reachable initialStore
  | step {s : Store} : Reachable s → ∀ op : StoreOp, Reachable (applyOp s op)

/-- Number of `is_valid = 1` password-reset rows of one user. -/
def validResets (s : Store) (userId : Nat) : Nat :=
  (s.passwordResets.filter (fun r => r.userId == userId && r.isValid)).length

/-! Concrete fixtures used by witnesses and counterexamples. -/

/-- A stored active user (password digest as the store holds it). -/
def aliceRow : UserRow :=
  { id := 1, email := "a@x.com", password := hashPassword "secret1",
    name := "A", isActive := true, isVerified := false,
    createdAt := 0, updatedAt := 0 }

/-- Store with one active user and no token rows. -/
def sampleStore : Store :=
  { users := [aliceRow], refreshTokens := [], passwordResets := [], nextId := 2 }

/-- A deactivated user: invisible to `findByEmail` (which filters on
`is_active = 1`) but still occupying its unique email. -/
def inactiveBobRow : UserRow :=
  { id := 1, email := "b@x.com", password := hashPassword "pw0",
    name := "B", isActive := false, isVerified := false,
    createdAt := 0, updatedAt := 0 }

/-- Store whose only row with email `b@x.com` is inactive. -/
def dupStore : Store :=
  { users := [inactiveBobRow], refreshTokens := [], passwordResets := [],
    nextId := 2 }

/-- Store with one active user holding one live refresh token `t1`. -/
def rtStore : Store :=
  { users := [aliceRow],
    refreshTokens := [{ userId := 1, token := "t1", createdAt := 0,
                        expiresAt := sevenDays }],
    passwordResets := [], nextId := 2 }

/-- A concrete refresh-token verifier: accepts exactly the signed token
`t1` of user 1. -/
def sampleVerify : String → Option Nat :=
  fun t => if t == "t1" then some 1 else none

/-! Theorems settling the claims. -/

/-- Claim C6: for every email input, `forgotPassword` returns the identical
generic success response whether or not the email matches an active user,
so a caller cannot distinguish an existing account from a non-existing
one. -/
theorem forgotPassword_generic_response (s : Store) (now : Nat)
    (email rawResetToken : String) :
    (controllerForgotPassword s now email rawResetToken).1 =
      { status := 200, success := true,
        message := "If the email exists, a reset link will be sent" } := by
  unfold controllerForgotPassword
  cases findByEmail s email <;> rfl

/-- Claim C7: every failing sign-in — whether no active user has the email
or the user exists but the password does not verify — returns the
identical 401 "Invalid credentials" response, so the two failure causes
are indistinguishable to the caller. -/
theorem signIn_indistinguishable_failures (s : Store) (now : Nat)
    (email password accessToken refreshToken : String)
    (h : findByEmail s email = none ∨
      ∃ u, findByEmail s email = some u ∧
        comparePassword password u.password = false) :
    (controllerSignIn s now email password accessToken refreshToken).1 =
      { status := 401, success := false, message := "Invalid credentials" } := by
  unfold controllerSignIn
  rcases h with h | ⟨u, hu, hp⟩
  · rw [h]
  · rw [hu]
    simp [hp]

/-- Witness for C7: on the sample store, both an unknown email and a wrong
password for the stored user produce the same 401 response. -/
theorem signIn_indistinguishable_failures_witness :
    (controllerSignIn sampleStore 0 "nobody@x.com" "pw" "at" "rt").1 =
      { status := 401, success := false, message := "Invalid credentials" } ∧
    (controllerSignIn sampleStore 0 "a@x.com" "wrongpw" "at" "rt").1 =
      { status := 401, success := false, message := "Invalid credentials" } :=
  ⟨signIn_indistinguishable_failures sampleStore 0 "nobody@x.com" "pw" "at" "rt"
      (Or.inl (by decide)),
   signIn_indistinguishable_failures sampleStore 0 "a@x.com" "wrongpw" "at" "rt"
      (Or.inr ⟨formatUser aliceRow, by decide, by decide⟩)⟩

/-- Claim C8: the reset-token lookup is a pure SELECT — it returns the
store unchanged for every input, and repeating the lookup on the returned
store gives the same answer (a lookup alone never burns the token). -/
theorem resetToken_lookup_is_pure (s : Store) (now userId : Nat)
    (rawToken : String) :
    (findValidPasswordResetToken s now userId rawToken).2 = s ∧
    (findValidPasswordResetToken
        (findValidPasswordResetToken s now userId rawToken).2
        now userId rawToken).1 =
      (findValidPasswordResetToken s now userId rawToken).1 :=
  ⟨rfl, rfl⟩

/-- Claim C1 (evaluation of the code at the failing input): on a store
whose refresh-token table has no `(1, "old")` row, `updateRefreshToken`
does not abort — it returns `ok true` and inserts the new token anyway. -/
theorem updateRefreshToken_silent_success_on_missing_row :
    (updateRefreshToken sampleStore 0 1 "old" "new").1 = .ok true ∧
    ((updateRefreshToken sampleStore 0 1 "old" "new").2).refreshTokens =
      [{ userId := 1, token := "new", createdAt := 0,
         expiresAt := sevenDays }] := by
  exact ⟨rfl, rfl⟩

/-- Counterexample to C3 as stated: on a store whose only row with email
`b@x.com` is inactive, the existence check misses, the INSERT raises the
uniqueness violation, and `createUser` surfaces it as the generic
"Error creating user" failure (HTTP 500 in `signUp`) — it is not
translated to the DuplicateEmail error. -/
theorem createUser_uniqueness_violation_not_translated :
    (createUser dupStore 0 "b@x.com" "pw1" "B2").1 =
      .error "Error creating user: Duplicate entry for key email" ∧
    ("Error creating user: Duplicate entry for key email" ≠
      "Error creating user: User already exists with this email") ∧
    (controllerSignUp dupStore 0 "b@x.com" "pw1" "B2" "at" "rt").1.status = 500 ∧
    (controllerSignUp dupStore 0 "b@x.com" "pw1" "B2" "at" "rt").1.message =
      "Error creating user" := by
  exact ⟨rfl, by decide, rfl, rfl⟩

/-- Claim C3 (amended): with non-empty inputs, `createUser` fails with the
DuplicateEmail error when an active user with the email exists, and when
only the store's uniqueness constraint catches the duplicate (existence
check missed it), the operation still fails without overwriting — the
store is unchanged — but the violation is surfaced as the generic
"Error creating user" 500 response, not translated to DuplicateEmail. -/
theorem createUser_duplicate_handling (s : Store) (now : Nat)
    (email password name accessToken refreshToken : String)
    (hne : email.isEmpty = false) (hnp : password.isEmpty = false)
    (hnn : name.isEmpty = false) :
    ((∃ u, findByEmail s email = some u) →
      createUser s now email password name =
        (.error "Error creating user: User already exists with this email", s)) ∧
    (findByEmail s email = none →
      (∃ u ∈ s.users, u.email = email) →
      createUser s now email password name =
        (.error "Error creating user: Duplicate entry for key email", s) ∧
      (controllerSignUp s now email password name accessToken
          refreshToken).1.status = 500 ∧
      (controllerSignUp s now email password name accessToken
          refreshToken).1.message = "Error creating user" ∧
      (controllerSignUp s now email password name accessToken
          refreshToken).2 = s) := by
  constructor
  · rintro ⟨u, hu⟩
    unfold createUser
    simp [hne, hnp, hnn, hu]
  · rintro hnone ⟨u, hmem, heq⟩
    have hany : s.users.any (fun v => v.email == email) = true := by
      rw [List.any_eq_true]
      exact ⟨u, hmem, by simp [heq]⟩
    have hcu : createUser s now email password name =
        (.error "Error creating user: Duplicate entry for key email", s) := by
      unfold createUser
      simp [hne, hnp, hnn, hnone, hany]
    refine ⟨hcu, ?_, ?_, ?_⟩ <;>
      · unfold controllerSignUp
        rw [hnone, hcu]

/-- Witness for C3 (amended): on the concrete stores, the inactive-email
clash fails generically with the store unchanged, while the active-email
clash yields the DuplicateEmail error. -/
theorem createUser_duplicate_handling_witness :
    createUser dupStore 0 "b@x.com" "pw1" "B2" =
      (.error "Error creating user: Duplicate entry for key email", dupStore) ∧
    (controllerSignUp dupStore 0 "b@x.com" "pw1" "B2" "at" "rt").2 = dupStore ∧
    createUser sampleStore 0 "a@x.com" "pw1" "A2" =
      (.error "Error creating user: User already exists with this email",
       sampleStore) :=
  ⟨((createUser_duplicate_handling dupStore 0 "b@x.com" "pw1" "B2" "at" "rt"
      rfl rfl rfl).2 (by decide) ⟨inactiveBobRow, by decide, rfl⟩).1,
   ((createUser_duplicate_handling dupStore 0 "b@x.com" "pw1" "B2" "at" "rt"
      rfl rfl rfl).2 (by decide) ⟨inactiveBobRow, by decide, rfl⟩).2.2.2,
   (createUser_duplicate_handling sampleStore 0 "a@x.com" "pw1" "A2" "at" "rt"
      rfl rfl rfl).1 ⟨formatUser aliceRow, by decide⟩⟩

/-- Claim C9: every key-value pair in the user payload a sign-up response
carries has key `id`, `email` or `name` — never `password` — while the
store-level record (`_formatUser`) does keep the password digest. -/
theorem signUp_payload_never_contains_digest (s : Store) (now : Nat)
    (email password name accessToken refreshToken : String)
    (kv : String × String)
    (hkv : kv ∈ ((controllerSignUp s now email password name accessToken
        refreshToken).1.userPayload.getD [])) :
    kv.1 ≠ "password" ∧ kv.1 ∈ (["id", "email", "name"] : List String) ∧
    ∀ u : UserRow, (formatUser u).password = u.password := by
  have hmem : kv.1 = "id" ∨ kv.1 = "email" ∨ kv.1 = "name" := by
    unfold controllerSignUp at hkv
    cases hfe : findByEmail s email with
    | some u =>
      rw [hfe] at hkv
      simp at hkv
    | none =>
      rw [hfe] at hkv
      cases hc : createUser s now email password name with
      | mk r s1 =>
        rw [hc] at hkv
        cases r with
        | error e => simp at hkv
        | ok u =>
          simp only [userJson, Option.getD_some, List.mem_cons,
            List.mem_singleton, List.not_mem_nil, or_false] at hkv
          rcases hkv with h | h | h
          · exact Or.inl (by rw [h])
          · exact Or.inr (Or.inl (by rw [h]))
          · exact Or.inr (Or.inr (by rw [h]))
  refine ⟨?_, ?_, fun u => rfl⟩
  · rcases hmem with h | h | h <;> rw [h] <;> decide
  · rcases hmem with h | h | h <;> rw [h] <;> decide

/-- Witness for C9: on a fresh store the sign-up succeeds and its payload
contains the pair `("id", "1")`, whose key is not `password`. -/
theorem signUp_payload_witness :
    ("id", "1").1 ≠ "password" ∧
    ("id", "1").1 ∈ (["id", "email", "name"] : List String) ∧
    ∀ u : UserRow, (formatUser u).password = u.password :=
  signUp_payload_never_contains_digest initialStore 0 "a@x.com" "secret1" "A"
    "at" "rt" ("id", "1") (by decide)

/-- Claim C2: a refresh token already used once to rotate was deleted by
that rotation, so replaying it misses the `(userId, token)` store lookup
at any later time and the refresh endpoint answers 403 "Invalid refresh
token" with the client cookies cleared — never a new token pair. -/
theorem rotated_token_replay_denied (s : Store) (now now2 userId : Nat)
    (oldToken newToken newAccess newRefresh : String)
    (verifyRefresh : String → Option Nat)
    (hne : oldToken ≠ newToken)
    (hv : verifyRefresh oldToken = some userId) :
    findByRefreshToken (updateRefreshToken s now userId oldToken newToken).2
      now2 userId oldToken = none ∧
    (controllerRefreshToken verifyRefresh
        (updateRefreshToken s now userId oldToken newToken).2 now2
        (some oldToken) newAccess newRefresh).1 =
      { status := 403, success := false, message := "Invalid refresh token",
        cookiesCleared := true } := by
  have hany : (((updateRefreshToken s now userId oldToken newToken).2).refreshTokens.any
      (fun rt => rt.userId == userId && rt.token == oldToken &&
        decide (now2 < rt.expiresAt))) = false := by
    unfold updateRefreshToken storeRefreshToken
    rw [List.any_eq_false]
    intro rt hrt
    rw [List.mem_append] at hrt
    rcases hrt with h | h
    · rw [List.mem_filter] at h
      have h2 := h.2
      simp only [Bool.not_eq_true'] at h2
      simp [h2]
    · simp only [List.mem_singleton] at h
      subst h
      simp
      intro hbad
      exact absurd hbad hne.symm
  have hmiss : findByRefreshToken
      (updateRefreshToken s now userId oldToken newToken).2 now2 userId
      oldToken = none := by
    unfold findByRefreshToken
    simp [hany]
  refine ⟨hmiss, ?_⟩
  unfold controllerRefreshToken
  simp only [hv, hmiss]

/-- Witness for C2: rotating `t1` to `t2` on the concrete store, then
replaying `t1`, hits the 403 cleared-cookies denial. -/
theorem rotated_token_replay_denied_witness :
    ("t1" : String) ≠ "t2" ∧ sampleVerify "t1" = some 1 ∧
    (findByRefreshToken (updateRefreshToken rtStore 0 1 "t1" "t2").2 5 1 "t1" =
      none ∧
    (controllerRefreshToken sampleVerify
        (updateRefreshToken rtStore 0 1 "t1" "t2").2 5 (some "t1")
        "a2" "r2").1 =
      { status := 403, success := false, message := "Invalid refresh token",
        cookiesCleared := true }) :=
  ⟨by decide, by decide,
   rotated_token_replay_denied rtStore 0 5 1 "t1" "t2" "a2" "r2" sampleVerify
     (by decide) (by decide)⟩

/-- Shape of a successful `updatePassword` transaction: password digest
replaced for the active user, all of the user's refresh rows deleted, all
of the user's reset rows invalidated, nothing else touched. -/
theorem updatePassword_ok_shape (s : Store) (now userId : Nat)
    (newPassword : String)
    (hany : s.users.any (fun u => u.id == userId && u.isActive) = true) :
    updatePassword s now userId newPassword =
      (.ok true,
       { users := s.users.map (fun u => if u.id == userId && u.isActive then
            { u with password := hashPassword newPassword, updatedAt := now }
          else u),
         refreshTokens := s.refreshTokens.filter
           (fun rt => !(rt.userId == userId)),
         passwordResets := invalidateResetsFor userId s.passwordResets,
         nextId := s.nextId }) := by
  unfold updatePassword clearAllRefreshTokens
  rw [if_pos hany]

/-- Claim C4: `updatePassword` is all-or-nothing — when an active user with
the id exists it succeeds and (in one unit) replaces the password digest,
deletes every refresh-token row of the user and invalidates every reset
row of the user; when none exists it fails and returns the store exactly
as it was. -/
theorem updatePassword_atomic (s : Store) (now userId : Nat)
    (newPassword : String) :
    ((∃ u ∈ s.users, u.id = userId ∧ u.isActive = true) →
      (updatePassword s now userId newPassword).1 = .ok true ∧
      (∀ u ∈ ((updatePassword s now userId newPassword).2).users,
        u.id = userId → u.isActive = true →
          u.password = hashPassword newPassword) ∧
      (∀ rt ∈ ((updatePassword s now userId newPassword).2).refreshTokens,
        rt.userId ≠ userId) ∧
      (∀ pr ∈ ((updatePassword s now userId newPassword).2).passwordResets,
        pr.userId = userId → pr.isValid = false)) ∧
    ((¬ ∃ u ∈ s.users, u.id = userId ∧ u.isActive = true) →
      updatePassword s now userId newPassword =
        (.error "Error updating password: User not found or not active", s)) := by
  have hiff : (s.users.any (fun u => u.id == userId && u.isActive)) = true ↔
      ∃ u ∈ s.users, u.id = userId ∧ u.isActive = true := by
    rw [List.any_eq_true]
    constructor
    · rintro ⟨u, hu, hp⟩
      refine ⟨u, hu, ?_⟩
      simpa using hp
    · rintro ⟨u, hu, h1, h2⟩
      exact ⟨u, hu, by simp [h1, h2]⟩
  constructor
  · intro hex
    have hany := hiff.mpr hex
    rw [updatePassword_ok_shape s now userId newPassword hany]
    refine ⟨rfl, ?_, ?_, ?_⟩
    · intro u hu h1 h2
      simp only [List.mem_map] at hu
      obtain ⟨v, hv, hvu⟩ := hu
      by_cases hc : (v.id == userId && v.isActive) = true
      · rw [if_pos hc] at hvu
        rw [← hvu]
      · rw [if_neg hc] at hvu
        subst hvu
        exact absurd (by simp [h1, h2]) hc
    · intro rt hrt
      rw [List.mem_filter] at hrt
      have h2 := hrt.2
      simp only [Bool.not_eq_true'] at h2
      intro hEq
      rw [hEq] at h2
      simp at h2
    · intro pr hpr h1
      unfold invalidateResetsFor at hpr
      simp only [List.mem_map] at hpr
      obtain ⟨q, hq, hqp⟩ := hpr
      by_cases hc : (q.userId == userId) = true
      · rw [if_pos hc] at hqp
        rw [← hqp]
      · rw [if_neg hc] at hqp
        subst hqp
        exact absurd (by simp [h1]) hc
  · intro hnex
    unfold updatePassword
    rw [if_neg (fun hc => hnex (hiff.mp hc))]

/-- Witness for C4: on the sample store the update for user 1 succeeds,
and for absent user 99 it fails leaving the store untouched. -/
theorem updatePassword_atomic_witness :
    (updatePassword sampleStore 0 1 "n3wpass").1 = .ok true ∧
    updatePassword sampleStore 0 99 "n3wpass" =
      (.error "Error updating password: User not found or not active",
       sampleStore) :=
  ⟨((updatePassword_atomic sampleStore 0 1 "n3wpass").1
      ⟨aliceRow, by decide, rfl, rfl⟩).1,
   (updatePassword_atomic sampleStore 0 99 "n3wpass").2 (by decide)⟩

/-- Claim C10: `storeRefreshToken` always persists the row with
`expires_at = now + 7 days` — a constant independent of the configured
refresh-token TTL, which only sets the JWT-embedded expiry — so a token
whose configured TTL is longer still stops matching the store lookup once
7 days pass, even while the codec still verifies it. -/
theorem refresh_row_expiry_constant_seven_days (s : Store)
    (now userId now2 refreshTTL : Nat) (tok : String)
    (hfresh : ∀ rt ∈ s.refreshTokens,
      (rt.userId == userId && rt.token == tok) = false)
    (hlate : now + sevenDays ≤ now2) (httl : now2 < now + refreshTTL) :
    ((storeRefreshToken s now userId tok).2).refreshTokens =
      s.refreshTokens ++
        [{ userId := userId, token := tok, createdAt := now,
           expiresAt := now + sevenDays }] ∧
    findByRefreshToken (storeRefreshToken s now userId tok).2 now2 userId
      tok = none ∧
    verifyRefreshClaims now2 (issueRefreshClaims refreshTTL now userId) =
      true := by
  refine ⟨rfl, ?_, ?_⟩
  · have hany : (((storeRefreshToken s now userId tok).2).refreshTokens.any
        (fun rt => rt.userId == userId && rt.token == tok &&
          decide (now2 < rt.expiresAt))) = false := by
      unfold storeRefreshToken
      rw [List.any_eq_false]
      intro rt hrt
      rw [List.mem_append] at hrt
      rcases hrt with h | h
      · have h2 := hfresh rt h
        simp [h2]
      · simp only [List.mem_singleton] at h
        subst h
        simp
        omega
    unfold findByRefreshToken
    simp [hany]
  · unfold verifyRefreshClaims issueRefreshClaims
    simp [httl]

/-- Witness for C10: a token stored at time 0 under a 30-day configured
TTL has a 7-day row, misses the lookup on day 8, yet still passes codec
verification on day 8. -/
theorem refresh_row_expiry_witness :
    ((storeRefreshToken initialStore 0 1 "t").2).refreshTokens =
      initialStore.refreshTokens ++
        [{ userId := 1, token := "t", createdAt := 0,
           expiresAt := 0 + sevenDays }] ∧
    findByRefreshToken (storeRefreshToken initialStore 0 1 "t").2
      (8 * 24 * 60 * 60) 1 "t" = none ∧
    verifyRefreshClaims (8 * 24 * 60 * 60)
      (issueRefreshClaims (30 * 24 * 60 * 60) 0 1) = true :=
  refresh_row_expiry_constant_seven_days initialStore 0 1 (8 * 24 * 60 * 60)
    (30 * 24 * 60 * 60) "t" (by simp [initialStore]) (by decide) (by decide)

/-- After the bulk `is_valid = 0` update for a user, that user has no
valid reset rows left. -/
theorem filter_invalidateResetsFor_self (userId : Nat)
    (l : List PasswordResetRow) :
    (invalidateResetsFor userId l).filter
      (fun r => r.userId == userId && r.isValid) = [] := by
  induction l with
  | nil => rfl
  | cons r t ih =>
    simp only [invalidateResetsFor, List.map_cons, List.filter_cons] at ih ⊢
    by_cases h : (r.userId == userId) = true
    · simp only [if_pos h]
      simpa [h] using ih
    · simp only [if_neg h]
      simp only [Bool.not_eq_true] at h
      simpa [h] using ih

/-- The bulk `is_valid = 0` update for one user leaves every other user's
valid reset rows untouched. -/
theorem filter_invalidateResetsFor_other (userId uid2 : Nat)
    (hne : uid2 ≠ userId) (l : List PasswordResetRow) :
    (invalidateResetsFor userId l).filter
        (fun r => r.userId == uid2 && r.isValid) =
      l.filter (fun r => r.userId == uid2 && r.isValid) := by
  induction l with
  | nil => rfl
  | cons r t ih =>
    simp only [invalidateResetsFor, List.map_cons, List.filter_cons] at ih ⊢
    by_cases h : (r.userId == userId) = true
    · have h2 : (r.userId == uid2) = false := by
        rw [beq_iff_eq] at h
        rw [h]
        exact beq_eq_false_iff_ne.mpr (Ne.symm hne)
      simp only [if_pos h]
      simpa [h2] using ih
    · simp only [if_neg h]
      rw [ih]

/-- `createUser` never touches the password-reset table. -/
theorem createUser_passwordResets (s : Store) (now : Nat)
    (email password name : String) :
    ((createUser s now email password name).2).passwordResets =
      s.passwordResets := by
  unfold createUser
  split
  · rfl
  · split
    · rfl
    · split
      · rfl
      · dsimp only
        split
        · rfl
        · rfl

/-- `updatePassword` either rolls back (reset table as before) or
invalidates exactly the user's reset rows. -/
theorem updatePassword_passwordResets (s : Store) (now userId : Nat)
    (newPassword : String) :
    ((updatePassword s now userId newPassword).2).passwordResets =
        invalidateResetsFor userId s.passwordResets ∨
    ((updatePassword s now userId newPassword).2).passwordResets =
        s.passwordResets := by
  unfold updatePassword clearAllRefreshTokens
  split
  · left; rfl
  · right; rfl

/-- Claim C5: at every reachable store state each user has at most one
`is_valid = 1` password-reset row: issuing a reset token invalidates all
prior rows before inserting the new one, a password update invalidates all
remaining rows, and no other operation touches the table. -/
theorem reachable_at_most_one_valid_reset {s : Store} (h : Reachable s) :
    ∀ userId, validResets s userId ≤ 1 := by
  induction h with
  | init =>
    intro uid
    exact Nat.zero_le 1
  | step hr op ih =>
    intro uid
    cases op with
    | create now e p n =>
      unfold validResets
      rw [show (applyOp _ (StoreOp.create now e p n)) =
        (createUser _ now e p n).2 from rfl, createUser_passwordResets]
      exact ih uid
    | storeRT now uidT t =>
      exact ih uid
    | rotateRT now uidT o nt =>
      exact ih uid
    | removeRT uidT t =>
      exact ih uid
    | clearRT uidT =>
      exact ih uid
    | storeReset now uidT tok =>
      unfold validResets
      rw [show (applyOp _ (StoreOp.storeReset now uidT tok)) =
        (storePasswordResetToken _ now uidT tok).2 from rfl]
      unfold storePasswordResetToken
      rw [List.filter_append]
      by_cases hEq : uid = uidT
      · subst hEq
        rw [filter_invalidateResetsFor_self]
        simp
      · rw [filter_invalidateResetsFor_other uidT uid hEq]
        simp [Ne.symm hEq]
        exact ih uid
    | updatePw now uidT p =>
      unfold validResets
      rcases updatePassword_passwordResets _ now uidT p with hcase | hcase
      · rw [show (applyOp _ (StoreOp.updatePw now uidT p)) =
          (updatePassword _ now uidT p).2 from rfl, hcase]
        by_cases hEq : uid = uidT
        · subst hEq
          rw [filter_invalidateResetsFor_self]
          exact Nat.zero_le 1
        · rw [filter_invalidateResetsFor_other uidT uid hEq]
          exact ih uid
      · rw [show (applyOp _ (StoreOp.updatePw now uidT p)) =
          (updatePassword _ now uidT p).2 from rfl, hcase]
        exact ih uid

/-- Witness for C5: after issuing two reset tokens in a row for user 1 on
a fresh store, user 1 still has at most one valid reset row. -/
theorem reachable_at_most_one_valid_reset_witness :
    validResets (applyOp (applyOp initialStore (StoreOp.storeReset 0 1 "d1"))
      (StoreOp.storeReset 5 1 "d2")) 1 ≤ 1 :=
  reachable_at_most_one_valid_reset
    ((Reachable.init.step (StoreOp.storeReset 0 1 "d1")).step
      (StoreOp.storeReset 5 1 "d2")) 1

end JwtAuth
